import Mathlib

/-!
Shallow embedding of `src/bongo_chat.py` (Bongo-Chat-AI-Client).

The source is a small client wrapper: a dataclass `AIResponse`, an
exception hierarchy (`AIServiceError` ⊃ `InvalidPromptError`,
`ServiceConnectionError`), and a class `BongoChatAI` with
`validate_prompt` and `generate_response`.  The HTTP transport
(`cloudscraper` scraper object) is opaque external capability; here it is
modelled as an injected `Transport` value describing what the combination
of `scraper.get` + `response.json()` does on this call: either it yields a
parsed JSON body (typed according to the assumed response contract:
`status` integer, `response` text, `type` text, each possibly missing),
or it raises some Python exception.  Python exceptions are modelled by
`PyExc`; the class statements of lines 21-31 are modelled by `PyClass`
with its method-resolution-order list `mro`.
-/

deriving instance DecidableEq for Except

/-- Python `str.strip()` with no argument: the string with leading and
trailing whitespace removed (whitespace modelled by `Char.isWhitespace`). -/
def pyStrip (s : String) : String :=
  ⟨List.reverse (List.dropWhile Char.isWhitespace
      (List.reverse (List.dropWhile Char.isWhitespace s.data)))⟩

/-- A Python value passed as `prompt`: either a `str`, or a non-string
value about which only its truthiness matters (the code only applies
`not prompt` and `isinstance(prompt, str)` to it before raising). -/
inductive PyVal where
  | str (s : String)
  | nonStr (truthy : Bool)
deriving DecidableEq, Repr

/-- Python exceptions that can flow through `generate_response`.
`invalidPromptError`, `serviceConnectionError`, `aiServiceError` are the
exception classes declared in the source (lines 21-31);
`cloudflareChallengeError` is `cloudscraper.exceptions.CloudflareChallengeError`;
`keyError` is the `KeyError` raised by a `response_data[...]` lookup on a
missing field; `other` stands for any other exception (network failure,
malformed-JSON decode error, ...), carrying its `str(e)` message. -/
inductive PyExc where
  | invalidPromptError (msg : String)
  | serviceConnectionError (msg : String)
  | aiServiceError (msg : String)
  | cloudflareChallengeError (msg : String)
  | keyError (key : String)
  | other (msg : String)
deriving DecidableEq, Repr

/-- Python `str(e)` for an exception constructed with a single message
argument; for `KeyError(k)` Python prints the repr of the key, hence the
quotes. -/
def PyExc.message : PyExc → String
  | .invalidPromptError m => m
  | .serviceConnectionError m => m
  | .aiServiceError m => m
  | .cloudflareChallengeError m => m
  | .keyError k => "'" ++ k ++ "'"
  | .other m => m

/-- The Python classes relevant to the exception hierarchy of the source
(lines 21-31), plus `Exception` and the classes of foreign exceptions. -/
inductive PyClass where
  | exceptionClass
  | aiServiceErrorClass
  | invalidPromptErrorClass
  | serviceConnectionErrorClass
  | cloudflareChallengeErrorClass
  | keyErrorClass
  | otherClass
deriving DecidableEq, Repr

/-- Method resolution order of each class, from the `class ... ( ... )`
declarations: `AIServiceError(Exception)`, `InvalidPromptError(AIServiceError)`,
`ServiceConnectionError(AIServiceError)`; the foreign exception classes
derive from `Exception` directly. -/
def PyClass.mro : PyClass → List PyClass
  | .exceptionClass => [.exceptionClass]
  | .aiServiceErrorClass => [.aiServiceErrorClass, .exceptionClass]
  | .invalidPromptErrorClass =>
      [.invalidPromptErrorClass, .aiServiceErrorClass, .exceptionClass]
  | .serviceConnectionErrorClass =>
      [.serviceConnectionErrorClass, .aiServiceErrorClass, .exceptionClass]
  | .cloudflareChallengeErrorClass => [.cloudflareChallengeErrorClass, .exceptionClass]
  | .keyErrorClass => [.keyErrorClass, .exceptionClass]
  | .otherClass => [.otherClass, .exceptionClass]

/-- Python `issubclass(c, d)`: `d` occurs in the mro of `c`.  This is what
an `except D:` clause tests on the class of a raised exception. -/
def PyClass.isSubclassOf (c d : PyClass) : Bool :=
  c.mro.contains d

/-- The class of each modelled exception value. -/
def PyExc.cls : PyExc → PyClass
  | .invalidPromptError _ => .invalidPromptErrorClass
  | .serviceConnectionError _ => .serviceConnectionErrorClass
  | .aiServiceError _ => .aiServiceErrorClass
  | .cloudflareChallengeError _ => .cloudflareChallengeErrorClass
  | .keyError _ => .keyErrorClass
  | .other _ => .otherClass

/-- The `AIResponse` dataclass (source lines 7-19). -/
structure AIResponse where
  content : String
  status_code : Int
  error : Option String := none
deriving DecidableEq, Repr

/-- The parsed JSON body of the service response, typed after the assumed
external contract (spec §6): field `status` an integer, fields `response`
and `type` text; `none` models an absent field (a lookup then raises
`KeyError`). -/
structure ResponseData where
  status : Option Int
  response : Option String
  type : Option String
deriving DecidableEq, Repr

/-- Dictionary lookup `response_data[key]`: yields the value or raises
`KeyError(key)`. -/
def getItem {α : Type} (v : Option α) (key : String) : Except PyExc α :=
  match v with
  | some x => .ok x
  | none => .error (.keyError key)

/-- Behaviour of the injected transport on this call:
`returns data` means `scraper.get(...)` succeeded and `response.json()`
parsed to `data`; `raises e` means `scraper.get` or `response.json()`
raised the exception `e` (challenge failure, network failure,
malformed-JSON decode error, ...). -/
inductive Transport where
  | returns (data : ResponseData)
  | raises (e : PyExc)
deriving DecidableEq, Repr

/-- The configuration state of a `BongoChatAI` instance, as set by
`__init__` (source lines 80-104): the model identifier, the base URL and
the static header set.  The scraper object itself is the opaque
transport. -/
structure ClientState where
  model : String
  base_url : String
  headers : List (String × String)
deriving DecidableEq, Repr

/-- The static header set hardcoded in `__init__` (source lines 90-104). -/
def default_headers : List (String × String) :=
  [ ("accept", "*/*"),
    ("accept-language", "en-US,en;q=0.6"),
    ("origin", "https://bongonetworkteambd.github.io"),
    ("priority", "u=1, i"),
    ("referer", "https://bongonetworkteambd.github.io/"),
    ("sec-ch-ua", "\"Brave\";v=\"131\", \"Chromium\";v=\"131\", \"Not_A Brand\";v=\"24\""),
    ("sec-ch-ua-mobile", "?0"),
    ("sec-ch-ua-platform", "\"Windows\""),
    ("sec-fetch-dest", "empty"),
    ("sec-fetch-mode", "cors"),
    ("sec-fetch-site", "cross-site"),
    ("sec-gpc", "1"),
    ("user-agent", "Mozilla/5.0 (Windows NT 10.0; Win64; x64) AppleWebKit/537.36 (KHTML, like Gecko) Chrome/131.0.0.0 Safari/537.36") ]

/-- The state built by `__init__(model)` (source lines 80-104). -/
def initState (model : String := "gpt-4o-mini") : ClientState :=
  { model := model,
    base_url := "https://darkness.ashlynn.workers.dev/chat/",
    headers := default_headers }

/-- Source method `BongoChatAI.validate_prompt` (lines 106-119), translated
clause by clause: `if not prompt or not isinstance(prompt, str)` raises
the first `InvalidPromptError`; `if len(prompt.strip()) == 0` raises the
second; otherwise the method returns `None`.  For a string, `not prompt`
is emptiness; for a non-string the `isinstance` disjunct is true whatever
the truthiness. -/
def validate_prompt : PyVal → Except PyExc Unit
  | .str s =>
      if (s = "") ∨ False then
        .error (.invalidPromptError "Prompt cannot be empty and must be a string")
      else if (pyStrip s).length = 0 then
        .error (.invalidPromptError "Prompt cannot be whitespace only")
      else .ok ()
  | .nonStr t =>
      if (t = false) ∨ True then
        .error (.invalidPromptError "Prompt cannot be empty and must be a string")
      else .ok ()

/-- The string underlying a `PyVal` known to be a `str` (used only after
validation has succeeded, which forces the `str` case). -/
def PyVal.asStr : PyVal → String
  | .str s => s
  | .nonStr _ => ""

/-- One outbound `scraper.get` request: url, query parameters, headers. -/
structure GetRequest where
  url : String
  params : List (String × String)
  headers : List (String × String)
deriving DecidableEq, Repr

/-- The `try:` block of `generate_response` (source lines 136-162):
validate, build params, perform the GET through the transport, parse the
JSON body, branch on `response_data['status'] == HTTPStatus.OK`.
Returns the outcome together with the list of transport invocations
performed. -/
def try_block (st : ClientState) (tr : Transport) (prompt : PyVal) :
    Except PyExc AIResponse × List GetRequest :=
  match validate_prompt prompt with
  | .error e => (.error e, [])
  | .ok _ =>
    let params := [("prompt", prompt.asStr), ("model", st.model)]
    let req : GetRequest := ⟨st.base_url, params, st.headers⟩
    match tr with
    | .raises e => (.error e, [req])
    | .returns response_data =>
      match getItem response_data.status "status" with
      | .error e => (.error e, [req])
      | .ok s =>
        if s = 200 then
          match getItem response_data.response "response" with
          | .error e => (.error e, [req])
          | .ok content => (.ok ⟨content, 200, none⟩, [req])
        else
          match getItem response_data.type "type" with
          | .error e => (.error e, [req])
          | .ok t => (.ok ⟨"", s, some t⟩, [req])

/-- The `except` clauses of `generate_response` (source lines 164-169), in
order: `except InvalidPromptError as e: raise e`;
`except cloudscraper.exceptions.CloudflareChallengeError:` raises
`ServiceConnectionError("Failed to bypass Cloudflare protection")`;
`except Exception as e:` raises `AIServiceError(f"Unexpected error: {str(e)}")`. -/
def handle_except : PyExc → PyExc
  | .invalidPromptError m => .invalidPromptError m
  | .cloudflareChallengeError _ =>
      .serviceConnectionError "Failed to bypass Cloudflare protection"
  | e => .aiServiceError ("Unexpected error: " ++ e.message)

/-- Source method `BongoChatAI.generate_response` (lines 121-169): the `try:`
block with its `except` clauses.  The result triple is (returned value or
raised exception, transport invocations performed, final client state);
the method assigns no attribute of `self`, so the final state is the
state read. -/
def generate_response (st : ClientState) (tr : Transport) (prompt : PyVal) :
    Except PyExc AIResponse × List GetRequest × ClientState :=
  match try_block st tr prompt with
  | (.ok r, reqs) => (.ok r, reqs, st)
  | (.error e, reqs) => (.error (handle_except e), reqs, st)

/-! Helper lemmas. -/

/-- A list whose whitespace-dropWhile is empty is all whitespace, and
conversely. -/
lemma dropWhile_whitespace_nil_iff (l : List Char) :
    (∀ x ∈ l.dropWhile Char.isWhitespace, Char.isWhitespace x) ↔
      ∀ x ∈ l, Char.isWhitespace x := by
  constructor
  · intro h x hx
    have hsplit : l.takeWhile Char.isWhitespace ++ l.dropWhile Char.isWhitespace = l :=
      List.takeWhile_append_dropWhile Char.isWhitespace l
    rw [← hsplit] at hx
    rcases List.mem_append.mp hx with h1 | h2
    · exact List.mem_takeWhile_imp h1
    · exact h x h2
  · intro h x hx
    exact h x ((List.dropWhile_sublist Char.isWhitespace).subset hx)

/-- Stripped string is empty exactly when every character of the string is
whitespace (in particular the string may be empty). -/
lemma pyStrip_length_zero_iff (s : String) :
    (pyStrip s).length = 0 ↔ ∀ x ∈ s.data, Char.isWhitespace x := by
  unfold pyStrip
  show (List.reverse _).length = 0 ↔ _
  rw [List.length_eq_zero, List.reverse_eq_nil_iff, List.dropWhile_eq_nil_iff]
  constructor
  · intro h x hx
    have h2 : ∀ x ∈ (s.data.dropWhile Char.isWhitespace), Char.isWhitespace x := by
      intro y hy
      exact h y (List.mem_reverse.mpr hy)
    exact (dropWhile_whitespace_nil_iff s.data).mp h2 x hx
  · intro h x hx
    exact h x ((List.dropWhile_sublist Char.isWhitespace).subset (List.mem_reverse.mp hx))

/-- Every error result of `generate_response` went through the `except`
clause translation `handle_except`. -/
lemma generate_response_error_shape (st : ClientState) (tr : Transport) (p : PyVal)
    (e : PyExc) (h : (generate_response st tr p).1 = .error e) :
    ∃ e0, e = handle_except e0 := by
  unfold generate_response at h
  rcases hb : try_block st tr p with ⟨res, reqs⟩
  rw [hb] at h
  cases res with
  | ok r => simp at h
  | error e0 => simp at h; exact ⟨e0, h.symm⟩

/-- Characterization of `validate_prompt` success. -/
lemma validate_prompt_ok_iff (p : PyVal) :
    validate_prompt p = .ok () ↔
      ∃ s, p = PyVal.str s ∧ ¬(∀ x ∈ s.data, Char.isWhitespace x) := by
  cases p with
  | nonStr t =>
      simp [validate_prompt]
  | str s =>
      by_cases hs : s = ""
      · subst hs
        constructor
        · intro h
          simp [validate_prompt] at h
        · rintro ⟨s', hs', hno⟩
          have he : "" = s' := by injection hs'
          subst he
          have hall : ∀ x ∈ ("" : String).data, Char.isWhitespace x := by
            intro x hx
            have hd : ("" : String).data = [] := rfl
            rw [hd] at hx
            cases hx
          exact absurd hall hno
      · by_cases hw : (pyStrip s).length = 0
        · constructor
          · intro h
            simp [validate_prompt, hs, hw] at h
          · rintro ⟨s', hs', hno⟩
            have he : s = s' := by injection hs'
            subst he
            exact absurd ((pyStrip_length_zero_iff s).mp hw) hno
        · constructor
          · intro _
            refine ⟨s, rfl, fun hall => ?_⟩
            exact hw ((pyStrip_length_zero_iff s).mpr hall)
          · intro _
            simp [validate_prompt, hs, hw]

/-- Shape of a successful `try_block`: the value returned comes from one of
the two `return AIResponse(...)` statements, so it either has status 200
with no error, or a non-200 status with empty content and the service
error string. -/
lemma try_block_ok_shape (st : ClientState) (tr : Transport) (p : PyVal)
    (r : AIResponse) (reqs : List GetRequest)
    (h : try_block st tr p = (.ok r, reqs)) :
    (r.status_code = 200 ∧ r.error = none) ∨
      (r.status_code ≠ 200 ∧ r.content = "" ∧ ∃ t, r.error = some t) := by
  unfold try_block at h
  cases hv : validate_prompt p with
  | error e => rw [hv] at h; simp at h
  | ok u =>
    cases u
    rw [hv] at h
    cases tr with
    | raises e => simp at h
    | returns data =>
      rcases data with ⟨os, oresp, otyp⟩
      cases os with
      | none => simp [getItem] at h
      | some s =>
        by_cases h200 : s = 200
        · subst h200
          cases oresp with
          | none => simp [getItem] at h
          | some content =>
            simp [getItem] at h
            left
            rw [← h.1]
            exact ⟨rfl, rfl⟩
        · cases otyp with
          | none => simp [getItem, h200] at h
          | some t =>
            simp [getItem, h200] at h
            right
            rw [← h.1]
            exact ⟨h200, rfl, t, rfl⟩

/-- C2: `validate_prompt` fails with `InvalidPromptError` exactly when the
prompt is not a string, is empty, or consists only of whitespace after
stripping; for every other string it returns without raising.  (In this
embedding `validate_prompt` is a pure function of its argument, so it has
no side effects by construction.) -/
theorem C2_validate_prompt_contract (p : PyVal) :
    (validate_prompt p = .ok () ↔
      ∃ s, p = PyVal.str s ∧ ¬(∀ x ∈ s.data, Char.isWhitespace x))
    ∧ ∀ e, validate_prompt p = .error e → ∃ m, e = PyExc.invalidPromptError m := by
  refine ⟨validate_prompt_ok_iff p, ?_⟩
  intro e h
  cases p with
  | nonStr t =>
      simp [validate_prompt] at h
      exact ⟨_, h.symm⟩
  | str s =>
      by_cases hs : s = ""
      · simp [validate_prompt, hs] at h
        exact ⟨_, h.symm⟩
      · by_cases hw : (pyStrip s).length = 0
        · simp [validate_prompt, hs, hw] at h
          exact ⟨_, h.symm⟩
        · simp [validate_prompt, hs, hw] at h

/-- Witness for C2 at the whitespace-only prompt `" "`. -/
theorem C2_witness :
    ∃ m, PyExc.invalidPromptError "Prompt cannot be whitespace only"
      = PyExc.invalidPromptError m :=
  (C2_validate_prompt_contract (PyVal.str " ")).2 _ (by decide)

/-- C5: on the empty prompt and on the whitespace prompt `"   "`,
`generate_response` raises the `InvalidPromptError` coming out of
`validate_prompt` unchanged, and performs no transport invocation. -/
theorem C5_invalid_prompt_no_transport (st : ClientState) (tr : Transport) :
    generate_response st tr (PyVal.str "") =
      (.error (.invalidPromptError "Prompt cannot be empty and must be a string"), [], st)
    ∧ generate_response st tr (PyVal.str "   ") =
      (.error (.invalidPromptError "Prompt cannot be whitespace only"), [], st) := by
  constructor <;> rfl

/-- C8: with a transport stub returning body
`{"status": 200, "response": "hi"}` and prompt `"hello"`,
`generate_response` returns the record (content `"hi"`, status 200, no
error). -/
theorem C8_success_case :
    (generate_response (initState "gpt-4o-mini")
        (.returns ⟨some 200, some "hi", none⟩) (PyVal.str "hello")).1
      = .ok ⟨"hi", 200, none⟩ := by decide

/-- C9: `generate_response` leaves the client configuration (model,
base URL, header set) unchanged, whatever the prompt and the transport
outcome. -/
theorem C9_config_unchanged (st : ClientState) (tr : Transport) (p : PyVal) :
    (generate_response st tr p).2.2 = st := by
  rcases h : try_block st tr p with ⟨res, reqs⟩
  unfold generate_response
  rw [h]
  cases res <;> rfl

/-- C1 counterexample: the claim "status 200 implies non-empty content" is
false: the service body `{"status": 200, "response": ""}` makes
`generate_response` return a record with status 200 and empty content. -/
theorem C1_counterexample :
    ((generate_response (initState "gpt-4o-mini")
        (.returns ⟨some 200, some "", none⟩) (PyVal.str "hello")).1
      = .ok ⟨"", 200, none⟩)
    ∧ ¬(∀ (st : ClientState) (tr : Transport) (p : PyVal) (r : AIResponse),
          (generate_response st tr p).1 = .ok r →
          r.status_code = 200 → r.content ≠ "" ∧ r.error = none) := by
  refine ⟨by decide, ?_⟩
  intro hclaim
  have h := hclaim (initState "gpt-4o-mini") (.returns ⟨some 200, some "", none⟩)
      (PyVal.str "hello") ⟨"", 200, none⟩ (by decide) rfl
  exact h.1 rfl

/-- C1 amended: every record returned by `generate_response` has no error
when its status is 200 (the content is whatever text the service sent,
possibly empty), and empty content with the service error string when its
status is not 200. -/
theorem C1_amended_invariant (st : ClientState) (tr : Transport) (p : PyVal)
    (r : AIResponse) (h : (generate_response st tr p).1 = .ok r) :
    (r.status_code = 200 → r.error = none) ∧
      (r.status_code ≠ 200 → r.content = "" ∧ ∃ t, r.error = some t) := by
  rcases hb : try_block st tr p with ⟨res, reqs⟩
  unfold generate_response at h
  rw [hb] at h
  cases res with
  | error e => simp at h
  | ok r0 =>
    simp at h
    subst h
    rcases try_block_ok_shape st tr p r0 reqs hb with ⟨h200, herr⟩ | ⟨h200, hc, ht⟩
    · exact ⟨fun _ => herr, fun hne => absurd h200 hne⟩
    · exact ⟨fun heq => absurd heq h200, fun _ => ⟨hc, ht⟩⟩

/-- Witness for C1's amended invariant at the in-band 429 failure body. -/
theorem C1_amended_witness :
    ((AIResponse.mk "" 429 (some "rate_limited")).status_code = 200 →
      (AIResponse.mk "" 429 (some "rate_limited")).error = none)
    ∧ ((AIResponse.mk "" 429 (some "rate_limited")).status_code ≠ 200 →
      (AIResponse.mk "" 429 (some "rate_limited")).content = ""
      ∧ ∃ t, (AIResponse.mk "" 429 (some "rate_limited")).error = some t) :=
  C1_amended_invariant (initState "gpt-4o-mini")
    (.returns ⟨some 429, none, some "rate_limited"⟩) (PyVal.str "hello")
    (AIResponse.mk "" 429 (some "rate_limited")) (by decide)

/-- C3: a well-formed body with a non-OK status (status and type fields
present, status not 200) makes `generate_response` return, not raise: the
record has empty content, the service-reported status and the
service-reported type string as error. -/
theorem C3_inband_service_error (st : ClientState) (p : PyVal) (s : Int)
    (resp : Option String) (t : String)
    (hv : validate_prompt p = .ok ()) (hs : s ≠ 200) :
    (generate_response st (.returns ⟨some s, resp, some t⟩) p).1
      = .ok ⟨"", s, some t⟩ := by
  unfold generate_response try_block
  rw [hv]
  simp [getItem, hs]

/-- Witness for C3 at the body `{"status": 429, "type": "rate_limited"}`. -/
theorem C3_witness :
    (generate_response (initState "gpt-4o-mini")
        (.returns ⟨some 429, none, some "rate_limited"⟩) (PyVal.str "hello")).1
      = .ok ⟨"", 429, some "rate_limited"⟩ :=
  C3_inband_service_error (initState "gpt-4o-mini") (PyVal.str "hello") 429 none
    "rate_limited" (by decide) (by decide)

/-- C4: whatever the prompt and the transport behaviour, an exception
raised out of `generate_response` is an `InvalidPromptError`, a
`ServiceConnectionError` or a generic `AIServiceError` — never a foreign
exception such as a `KeyError`, a JSON decode error or a transport-library
exception. -/
theorem C4_error_taxonomy (st : ClientState) (tr : Transport) (p : PyVal)
    (e : PyExc) (h : (generate_response st tr p).1 = .error e) :
    (∃ m, e = PyExc.invalidPromptError m)
    ∨ (∃ m, e = PyExc.serviceConnectionError m)
    ∨ (∃ m, e = PyExc.aiServiceError m) := by
  obtain ⟨e0, rfl⟩ := generate_response_error_shape st tr p e h
  cases e0 <;> simp [handle_except]

/-- Witness for C4 at a transport raising a generic failure. -/
theorem C4_witness :
    (∃ m, PyExc.aiServiceError "Unexpected error: boom" = PyExc.invalidPromptError m)
    ∨ (∃ m, PyExc.aiServiceError "Unexpected error: boom" = PyExc.serviceConnectionError m)
    ∨ (∃ m, PyExc.aiServiceError "Unexpected error: boom" = PyExc.aiServiceError m) :=
  C4_error_taxonomy (initState "gpt-4o-mini") (.raises (.other "boom"))
    (PyVal.str "hello") (PyExc.aiServiceError "Unexpected error: boom") (by decide)

/-- C6 counterexample: on a challenge failure the code raises
`ServiceConnectionError` with message "Failed to bypass Cloudflare
protection", not "Failed to bypass protection" as the claim states. -/
theorem C6_counterexample :
    ((generate_response (initState "gpt-4o-mini")
        (.raises (.cloudflareChallengeError "challenge detected")) (PyVal.str "hello")).1
      = .error (.serviceConnectionError "Failed to bypass Cloudflare protection"))
    ∧ ¬(∀ (st : ClientState) (p : PyVal) (m : String),
          validate_prompt p = .ok () →
          (generate_response st (.raises (.cloudflareChallengeError m)) p).1
            = .error (.serviceConnectionError "Failed to bypass protection")) := by
  refine ⟨by decide, ?_⟩
  intro hclaim
  have h1 := hclaim (initState "gpt-4o-mini") (PyVal.str "hello") "challenge detected"
    (by decide)
  have h2 : (generate_response (initState "gpt-4o-mini")
      (.raises (.cloudflareChallengeError "challenge detected")) (PyVal.str "hello")).1
      = .error (.serviceConnectionError "Failed to bypass Cloudflare protection") := by decide
  have h3 := h2.symm.trans h1
  have h4 : ("Failed to bypass Cloudflare protection" : String)
      = "Failed to bypass protection" := by
    injection h3 with h5
    injection h5 with h6
  exact absurd h4 (by decide)

/-- C6 amended: a challenge failure from the transport makes
`generate_response` raise `ServiceConnectionError` with the message
"Failed to bypass Cloudflare protection". -/
theorem C6_amended_challenge (st : ClientState) (p : PyVal) (m : String)
    (hv : validate_prompt p = .ok ()) :
    (generate_response st (.raises (.cloudflareChallengeError m)) p).1
      = .error (.serviceConnectionError "Failed to bypass Cloudflare protection") := by
  unfold generate_response try_block
  rw [hv]
  simp [handle_except]

/-- Witness for C6's amended claim at a concrete challenge failure. -/
theorem C6_amended_witness :
    (generate_response (initState "gpt-4o-mini")
        (.raises (.cloudflareChallengeError "blocked")) (PyVal.str "hello")).1
      = .error (.serviceConnectionError "Failed to bypass Cloudflare protection") :=
  C6_amended_challenge (initState "gpt-4o-mini") (PyVal.str "hello") "blocked" (by decide)

/-- C7: an unexpected transport failure that is neither a challenge
failure nor an `InvalidPromptError` is wrapped into the generic
`AIServiceError` whose message embeds the original exception message. -/
theorem C7_generic_wrapping (st : ClientState) (p : PyVal) (e : PyExc)
    (hv : validate_prompt p = .ok ())
    (hc : ∀ m, e ≠ PyExc.cloudflareChallengeError m)
    (hi : ∀ m, e ≠ PyExc.invalidPromptError m) :
    (generate_response st (.raises e) p).1
      = .error (.aiServiceError ("Unexpected error: " ++ e.message)) := by
  unfold generate_response try_block
  rw [hv]
  cases e with
  | invalidPromptError m => exact absurd rfl (hi m)
  | cloudflareChallengeError m => exact absurd rfl (hc m)
  | serviceConnectionError m => simp [handle_except, PyExc.message]
  | aiServiceError m => simp [handle_except, PyExc.message]
  | keyError k => simp [handle_except, PyExc.message]
  | other m => simp [handle_except, PyExc.message]

/-- Witness for C7 at a malformed-JSON decode failure. -/
theorem C7_witness :
    (generate_response (initState "gpt-4o-mini")
        (.raises (.other "Expecting value: line 1 column 1 (char 0)")) (PyVal.str "hello")).1
      = .error (.aiServiceError
          ("Unexpected error: " ++ (PyExc.other "Expecting value: line 1 column 1 (char 0)").message)) :=
  C7_generic_wrapping (initState "gpt-4o-mini") (PyVal.str "hello")
    (PyExc.other "Expecting value: line 1 column 1 (char 0)") (by decide)
    (fun m h => by cases h) (fun m h => by cases h)

/-- C10: the exception classes are not disjoint: `InvalidPromptError` and
`ServiceConnectionError` are subclasses of `AIServiceError`, and the class
of every exception `generate_response` raises — prompt-validation failures
included — is a subclass of `AIServiceError`, so an
`except AIServiceError` handler catches them all. -/
theorem C10_hierarchy :
    PyClass.isSubclassOf .invalidPromptErrorClass .aiServiceErrorClass = true
    ∧ PyClass.isSubclassOf .serviceConnectionErrorClass .aiServiceErrorClass = true
    ∧ ∀ (st : ClientState) (tr : Transport) (p : PyVal) (e : PyExc),
        (generate_response st tr p).1 = .error e →
        PyClass.isSubclassOf e.cls .aiServiceErrorClass = true := by
  refine ⟨by decide, by decide, ?_⟩
  intro st tr p e h
  obtain ⟨e0, rfl⟩ := generate_response_error_shape st tr p e h
  cases e0 <;> rfl

/-- Witness for C10 at a prompt-validation failure. -/
theorem C10_witness :
    PyClass.isSubclassOf
      (PyExc.invalidPromptError "Prompt cannot be empty and must be a string").cls
      .aiServiceErrorClass = true :=
  C10_hierarchy.2.2 (initState "gpt-4o-mini") (.returns ⟨some 200, some "hi", none⟩)
    (PyVal.str "")
    (PyExc.invalidPromptError "Prompt cannot be empty and must be a string") (by decide)
